import Mathlib

/-!
A verification development for the clock-synchronization core of
htpdate (src/htpdate.c).  The definitions below are a shallow
embedding of the C source: the insertion sort and median selection
of the poll-cycle buffer, the one-second inlier (false-ticker)
filter, the precision snap of the mean offset, the clock-setting
routine `setclock` modelled as its observable effects, the kernel
frequency update `htpdate_adjtimex`, the per-source sampling result
of `getHTTPdate`, and the daemon scheduler's sleep-interval update
at the end of each poll cycle.  Machine `long`/`int` values are
modelled as `Int` (with `LONG_MAX` explicit where the source uses
it as a sentinel), C `double` values as `ℚ`, and C casts from
`double` to `long` as truncation toward zero.
-/

namespace Htpdate

/-- The C macro `sign(x) = (x < 0 ? (-1) : 1)`; note that `csign 0 = 1`. -/
def csign (x : Int) : Int := if x < 0 then -1 else 1

/-- The `MAX_DRIFT` constant of the source: 500 PPM in kernel
frequency units (`32768000`). -/
def MAX_DRIFT : Int := 32768000

/-- The `LONG_MAX` value on an LP64 host; `getHTTPdate` initializes
`timevalue.tv_sec` to this sentinel. -/
def LONG_MAX : Int := 2 ^ 63 - 1

/-- The C cast `(long)q` of a floating value, modelled on `ℚ`:
truncation toward zero.  `Int.tdiv` is the division that truncates
toward zero, so `Int.tdiv q.num q.den` is exactly that truncation
(for example `ctrunc (-5 / 2) = -2`, as in C). -/
def ctrunc (q : ℚ) : Int := Int.tdiv q.num (q.den : Int)

/-- One pass of the inner loop of `insertsort`: insert `v` into an
already sorted prefix, shifting the strictly greater elements one
place to the right (`a[j] > value`). -/
def insertLoop (v : Int) : List Int → List Int
  | [] => [v]
  | y :: ys => if y > v then v :: y :: ys else y :: insertLoop v ys

/-- The `insertsort` routine from the source: walk the buffer left to
right, inserting each element into the sorted prefix. -/
def insertsort (a : List Int) : List Int :=
  a.foldl (fun acc x => insertLoop x acc) []

/-- The median pick of `main`: `mean = timedelta[validtimes/2]` after
the buffer was sorted in place (the source names this variable
`mean`). -/
def mean (l : List Int) : Int := (insertsort l).getD (l.length / 2) 0

/-- The false-ticker filter of `main`: keep the entries of the sorted
buffer within one second of the median
(`timedelta[i]-mean <= 1 && timedelta[i]-mean >= -1`). -/
def goodList (l : List Int) : List Int :=
  (insertsort l).filter (fun t => decide (t - mean l ≤ 1) && decide (t - mean l ≥ -1))

/-- The inlier sum `sumtimes` accumulated over the filter. -/
def sumtimes (l : List Int) : Int := (goodList l).sum

/-- The inlier count `goodtimes`. -/
def goodtimes (l : List Int) : Nat := (goodList l).length

/-- The sleep-interval update at the end of one poll cycle in
persistent (daemon/foreground) mode, read off the tail of the main
loop: with at least one inlier and a nonzero `sumtimes` the interval
is reset to `minsleep`; with a zero `sumtimes` it is doubled
(`sleeptime <<= 1`) provided it is still below `maxsleep`; with no
inliers it is left unchanged. -/
def nextSleeptime (goodtimes0 : Nat) (sumtimes0 : Int)
    (minsleep maxsleep sleeptime : Int) : Int :=
  if goodtimes0 ≠ 0 then
    if sumtimes0 ≠ 0 then minsleep
    else if sleeptime < maxsleep then 2 * sleeptime else sleeptime
  else sleeptime

/-- The sleep interval along a persistent run: fold the per-cycle
update over the cycle summaries (pairs `goodtimes`, `sumtimes`),
starting from the initial `sleeptime = minsleep`. -/
def runSleeptime (minsleep maxsleep : Int) (cycles : List (Nat × Int)) : Int :=
  cycles.foldl (fun st c => nextSleeptime c.1 c.2 minsleep maxsleep st) minsleep

/-- The observable result of one `getHTTPdate` call: the warning
messages printed and the returned time delta (a C `long`). -/
structure SampleResult where
  logs : List String
  delta : Int
  deriving DecidableEq

/-- The per-source sampling routine `getHTTPdate`, as a function of
the outcomes of its system calls.  `resolveOk` is the success of
`getaddrinfo`, `connectOk` of the socket/connect loop, `recvOk` of
the send/receive exchange.  `dateLine` describes the date handling
on a received response: `none` when no `Date:` header line was
found, `some none` when the line was found but `strptime` failed,
`some (some t)` when it parsed to UTC seconds `t` (the value
`gmtmktime` puts into `timevalue.tv_sec`).  `localSec` is
`timeofday.tv_sec` at the final reading.  `timevalue.tv_sec` keeps
its initializer `LONG_MAX` on every path that does not parse a
date, and the function returns `timevalue.tv_sec - timeofday.tv_sec`
— except for the resolution and connection failures, which return 0
("Assume correct time") before the timer is read. -/
def getHTTPdate (resolveOk connectOk recvOk : Bool)
    (dateLine : Option (Option Int)) (localSec : Int) : SampleResult :=
  if resolveOk = false then
    { logs := ["host or service unavailable"], delta := 0 }
  else if connectOk = false then
    { logs := ["connection failed"], delta := 0 }
  else if recvOk = false then
    { logs := ["error getting data"], delta := LONG_MAX - localSec }
  else
    match dateLine with
    | none => { logs := ["no timestamp"], delta := LONG_MAX - localSec }
    | some none => { logs := ["unknown time format"], delta := LONG_MAX - localSec }
    | some (some t) => { logs := [], delta := t - localSec }

/-- The pieces of system state `setclock` reads, and the return codes
of the privileged calls it may make. -/
structure SysEnv where
  nowSec : Int
  nowUsec : Int
  adjtimeRet : Int
  settimeofdayRet : Int

/-- The observable effect of one `setclock` call: messages printed,
whether `swuid(0)` elevated privileges, whether `adjtime` was
called, the `(tv_sec, tv_usec)` argument handed to `settimeofday`
when it was called, and the return value. -/
structure ClockEffect where
  logs : List String
  elevated : Bool
  adjtimeCalled : Bool
  writtenTime : Option (Int × Int)
  ret : Int
  deriving DecidableEq

/-- The routine `setclock` from the source, as its observable
effects.  A zero `timedelta` returns before the mode switch.  Mode 0
only prints the offset.  Mode 1 elevates and calls `adjtime`.  Mode
2 reads the current time, adds the offset, truncates — note the
source writes `(long)(timedelta - timeofday.tv_sec) * 1000000`, so
the cast to `long` happens before the multiplication — and elevates
and calls `settimeofday`.  Mode 3 recurses with mode 1.  Any other
mode returns -1. -/
def setclockEffects (env : SysEnv) (timedelta : ℚ) (setmode : Int) : ClockEffect :=
  if timedelta = 0 then
    { logs := ["No time correction needed"], elevated := false,
      adjtimeCalled := false, writtenTime := none, ret := 0 }
  else if setmode = 0 then
    { logs := ["Offset"], elevated := false,
      adjtimeCalled := false, writtenTime := none, ret := 0 }
  else if setmode = 1 then
    { logs := ["Adjusting"], elevated := true,
      adjtimeCalled := true, writtenTime := none, ret := env.adjtimeRet }
  else if setmode = 2 then
    let total : ℚ := timedelta + ((env.nowSec : ℚ) + (env.nowUsec : ℚ) * (1 / 1000000))
    let sec : Int := ctrunc total
    let usec : Int := ctrunc (total - (sec : ℚ)) * 1000000
    { logs := ["Setting", "Set"], elevated := true,
      adjtimeCalled := false, writtenTime := some (sec, usec),
      ret := env.settimeofdayRet }
  else if _hm3 : setmode = 3 then
    setclockEffects env timedelta 1
  else
    { logs := [], elevated := false,
      adjtimeCalled := false, writtenTime := none, ret := -1 }
termination_by (setmode - 2).toNat
decreasing_by
  subst _hm3
  decide

/-- The candidate kernel frequency computed by `htpdate_adjtimex`
from the drift ratio: `freq = (long)(65536e6 * drift)`. -/
def candidateFreq (drift : ℚ) : Int := ctrunc (65536000000 * drift)

/-- The new kernel frequency value written by `htpdate_adjtimex`, as
a function of the current kernel frequency (`tmx.freq` as read) and
the drift ratio.  The source computes
`tmx.freq = tmx.freq + (freq >> 1)` — `>>` is an arithmetic shift on
`long`, i.e. floor division by two — and then clamps an
out-of-range result to `sign(tmx.freq) * MAX_DRIFT`. -/
def htpdate_adjtimex (curFreq : Int) (drift : ℚ) : Int :=
  let f := curFreq + Int.fdiv (candidateFreq drift) 2
  if f < -MAX_DRIFT ∨ f > MAX_DRIFT then csign f * MAX_DRIFT else f

/-- The frequency update as claim C2 words it: the equal-weight
average of the current value and the candidate, clamped. -/
def averagedFreq (curFreq : Int) (drift : ℚ) : Int :=
  let f := Int.fdiv (curFreq + candidateFreq drift) 2
  if f < -MAX_DRIFT ∨ f > MAX_DRIFT then csign f * MAX_DRIFT else f

/-- The final `timeavg` handed to `setclock` in the correcting branch
of `main`: the raw mean `sumtimes / goodtimes`, overwritten by the
precision snap `precision / 1000000 * sign(sumtimes)` when a
precision was configured and `sumtimes` lies strictly between
`-goodtimes` and `goodtimes`. -/
def snapAvg (precision : Nat) (sumtimes0 : Int) (goodtimes0 : Nat) : ℚ :=
  if precision ≠ 0 ∧ sumtimes0 < (goodtimes0 : Int) ∧ -(goodtimes0 : Int) < sumtimes0 then
    (precision : ℚ) / 1000000 * ((csign sumtimes0 : Int) : ℚ)
  else (sumtimes0 : ℚ) / (goodtimes0 : ℚ)

/-- What one poll cycle does after the consensus numbers are in: the
argument `setclock` is invoked with (when it is invoked), whether
`htpdate_adjtimex` is invoked, the `sleep` calls made, the exit
status (when the process exits), and the next `sleeptime`. -/
structure CycleOutcome where
  setclockArg : Option ℚ
  adjtimexCalled : Bool
  sleeps : List Int
  exitCode : Option Nat
  sleeptime : Int
  deriving DecidableEq

/-- The tail of one poll cycle of `main` (from the `goodtimes` test
to the bottom of the loop), read off the source.  `persistent` is
`daemonize || foreground`; `starttimeSet` tells whether a prior
correction timestamp exists (`starttime` nonzero).  With no inliers
the cycle only logs, sleeps `minsleep` and retries in persistent
mode, and exits with status 1 in one-shot mode.  In the correcting
branch `setclock` receives the (possibly snapped) `timeavg`; in
persistent mode `htpdate_adjtimex` additionally runs in mode 3 when
a prior timestamp exists, `sleeptime` resets to `minsleep` and the
cycle sleeps the fixed `DEFAULT_MIN_SLEEP = 1800` cool-down.  In the
synchronized branch the interval doubles below `maxsleep`. -/
def cycleFinish (persistent : Bool) (setmode : Int) (precision : Nat)
    (goodtimes0 : Nat) (sumtimes0 : Int) (minsleep maxsleep sleeptime : Int)
    (starttimeSet : Bool) : CycleOutcome :=
  if goodtimes0 ≠ 0 then
    if sumtimes0 ≠ 0 ∨ persistent = false then
      { setclockArg := some (snapAvg precision sumtimes0 goodtimes0)
        adjtimexCalled := persistent && starttimeSet && decide (setmode = 3)
        sleeps := if persistent then [1800] else []
        exitCode := none
        sleeptime := if persistent then minsleep else sleeptime }
    else
      { setclockArg := none
        adjtimexCalled := false
        sleeps := []
        exitCode := none
        sleeptime := if sleeptime < maxsleep then 2 * sleeptime else sleeptime }
  else
    { setclockArg := none
      adjtimexCalled := false
      sleeps := if persistent then [minsleep] else []
      exitCode := if persistent then none else some 1
      sleeptime := sleeptime }

theorem insertLoop_perm (v : Int) (l : List Int) :
    List.Perm (insertLoop v l) (v :: l) := by
  induction l with
  | nil => simp [insertLoop]
  | cons y ys ih =>
    by_cases h : y > v
    · simp [insertLoop, h]
    · simp only [insertLoop, if_neg h]
      exact (ih.cons y).trans (List.Perm.swap v y ys)

theorem insertLoop_sorted (v : Int) (l : List Int)
    (h : l.Sorted (· ≤ ·)) : (insertLoop v l).Sorted (· ≤ ·) := by
  induction l with
  | nil => simp [insertLoop]
  | cons y ys ih =>
    rw [List.sorted_cons] at h
    by_cases hv : y > v
    · simp only [insertLoop, if_pos hv]
      refine List.sorted_cons.mpr ⟨?_, List.sorted_cons.mpr h⟩
      intro b hb
      rcases List.mem_cons.mp hb with hb | hb
      · exact hb ▸ le_of_lt hv
      · exact le_trans (le_of_lt hv) (h.1 b hb)
    · simp only [insertLoop, if_neg hv]
      refine List.sorted_cons.mpr ⟨?_, ih h.2⟩
      intro b hb
      rcases List.mem_cons.mp ((insertLoop_perm v ys).mem_iff.mp hb) with hb | hb
      · exact hb ▸ le_of_not_lt hv
      · exact h.1 b hb

theorem insertsort_go_perm (l acc : List Int) :
    List.Perm (l.foldl (fun acc x => insertLoop x acc) acc) (acc ++ l) := by
  induction l generalizing acc with
  | nil => simp
  | cons x xs ih =>
    simp only [List.foldl_cons]
    refine (ih (insertLoop x acc)).trans ?_
    refine (((insertLoop_perm x acc).append_right xs).trans ?_)
    exact List.perm_middle.symm

theorem insertsort_go_sorted (l acc : List Int)
    (h : acc.Sorted (· ≤ ·)) :
    (l.foldl (fun acc x => insertLoop x acc) acc).Sorted (· ≤ ·) := by
  induction l generalizing acc with
  | nil => simpa
  | cons x xs ih =>
    simp only [List.foldl_cons]
    exact ih _ (insertLoop_sorted x acc h)

theorem insertsort_perm (l : List Int) : List.Perm (insertsort l) l := by
  simpa [insertsort] using insertsort_go_perm l []

theorem insertsort_sorted (l : List Int) :
    (insertsort l).Sorted (· ≤ ·) := by
  simpa [insertsort] using insertsort_go_sorted l [] (by simp)

/-- Claim C5: for every non-empty sample buffer, the cycle sorts it
ascending — `insertsort` yields a sorted permutation of its input —
and then selects the median as the element at index `⌊n/2⌋` of the
sorted sequence (`mean = timedelta[validtimes/2]`). -/
theorem insertsort_sorts_and_median (l : List Int) (_h : 0 < l.length) :
    (insertsort l).Sorted (· ≤ ·) ∧ List.Perm (insertsort l) l ∧
      mean l = (insertsort l).getD (l.length / 2) 0 :=
  ⟨insertsort_sorted l, insertsort_perm l, rfl⟩

/-- Witness for C5 at the buffer `[2, 3, 5]` of the spec's scenario. -/
theorem insertsort_sorts_and_median_witness :
    (insertsort [2, 3, 5]).Sorted (· ≤ ·) ∧
      List.Perm (insertsort [2, 3, 5]) [2, 3, 5] ∧
      mean [2, 3, 5] = (insertsort [2, 3, 5]).getD ([2, 3, 5].length / 2) 0 :=
  insertsort_sorts_and_median [2, 3, 5] (by decide)

theorem goodList_mem_window (l : List Int) (x : Int) (hx : x ∈ goodList l) :
    mean l - 1 ≤ x ∧ x ≤ mean l + 1 := by
  have h := List.of_mem_filter hx
  simp only [Bool.and_eq_true, decide_eq_true_eq] at h
  omega

/-- Claim C6: for every cycle with at least one inlier, the raw mean
offset `sumtimes / goodtimes` (computed before any precision snap)
lies within one second of the median, since every inlier does. -/
theorem timeavg_within_window (l : List Int) (h : 0 < goodtimes l) :
    ((mean l : ℚ) - 1) ≤ (sumtimes l : ℚ) / (goodtimes l : ℚ) ∧
      (sumtimes l : ℚ) / (goodtimes l : ℚ) ≤ (mean l : ℚ) + 1 := by
  have hlo : (goodtimes l : Int) * (mean l - 1) ≤ sumtimes l := by
    have hv := List.card_nsmul_le_sum (goodList l) (mean l - 1)
      (fun x hx => (goodList_mem_window l x hx).1)
    simpa [goodtimes, sumtimes, nsmul_eq_mul] using hv
  have hhi : sumtimes l ≤ (goodtimes l : Int) * (mean l + 1) := by
    have hv := List.sum_le_card_nsmul (goodList l) (mean l + 1)
      (fun x hx => (goodList_mem_window l x hx).2)
    simp only [goodtimes, sumtimes, nsmul_eq_mul] at hv ⊢
    linarith
  have hq : (0 : ℚ) < (goodtimes l : ℚ) := by exact_mod_cast h
  constructor
  · rw [le_div_iff₀ hq]
    have h2 : ((goodtimes l : Int) : ℚ) * ((mean l : ℚ) - 1) ≤ (sumtimes l : ℚ) := by
      exact_mod_cast hlo
    push_cast at h2 ⊢
    linarith
  · rw [div_le_iff₀ hq]
    have h2 : (sumtimes l : ℚ) ≤ ((goodtimes l : Int) : ℚ) * ((mean l : ℚ) + 1) := by
      exact_mod_cast hhi
    push_cast at h2 ⊢
    linarith

/-- Witness for C6 at the spec's scenario `[2, 3, 5]`: median 3,
inliers `[2, 3]`, mean offset 2.5 within `[2, 4]`. -/
theorem timeavg_within_window_witness :
    0 < goodtimes [2, 3, 5] ∧
      (((mean [2, 3, 5] : ℚ) - 1) ≤ (sumtimes [2, 3, 5] : ℚ) / (goodtimes [2, 3, 5] : ℚ) ∧
        (sumtimes [2, 3, 5] : ℚ) / (goodtimes [2, 3, 5] : ℚ) ≤ (mean [2, 3, 5] : ℚ) + 1) :=
  ⟨by decide, timeavg_within_window [2, 3, 5] (by decide)⟩

/-- Counterexample to claim C1 as stated: with `minsleep = 3` and
`maxsleep = 4`, one synchronized cycle (one inlier, zero correction)
doubles the interval from 3 to 6, which exceeds `maxsleep`; the
guard `sleeptime < maxsleep` is checked before doubling, so the
doubled value is not capped at `maxsleep`. -/
theorem sleeptime_can_exceed_maxsleep :
    runSleeptime 3 4 [(1, 0)] = 6 ∧ ¬ runSleeptime 3 4 [(1, 0)] ≤ 4 := by
  constructor
  · rfl
  · decide

theorem nextSleeptime_bounds (goodtimes0 : Nat) (sumtimes0 : Int)
    (minsleep maxsleep st : Int) (h1 : 1 ≤ minsleep)
    (hlo : minsleep ≤ st) (hhi : st ≤ max minsleep (2 * (maxsleep - 1))) :
    minsleep ≤ nextSleeptime goodtimes0 sumtimes0 minsleep maxsleep st ∧
      nextSleeptime goodtimes0 sumtimes0 minsleep maxsleep st ≤
        max minsleep (2 * (maxsleep - 1)) := by
  have hM1 : minsleep ≤ max minsleep (2 * (maxsleep - 1)) := le_max_left _ _
  have hM2 : 2 * (maxsleep - 1) ≤ max minsleep (2 * (maxsleep - 1)) := le_max_right _ _
  unfold nextSleeptime
  split_ifs with hg hs hd
  · exact ⟨le_refl _, hM1⟩
  · constructor
    · omega
    · omega
  · exact ⟨hlo, hhi⟩
  · exact ⟨hlo, hhi⟩

theorem runSleeptime_go_bounds (cycles : List (Nat × Int))
    (minsleep maxsleep st : Int) (h1 : 1 ≤ minsleep)
    (hlo : minsleep ≤ st) (hhi : st ≤ max minsleep (2 * (maxsleep - 1))) :
    minsleep ≤ cycles.foldl (fun st c => nextSleeptime c.1 c.2 minsleep maxsleep st) st ∧
      cycles.foldl (fun st c => nextSleeptime c.1 c.2 minsleep maxsleep st) st ≤
        max minsleep (2 * (maxsleep - 1)) := by
  induction cycles generalizing st with
  | nil => exact ⟨hlo, hhi⟩
  | cons c cs ih =>
    simp only [List.foldl_cons]
    have hstep := nextSleeptime_bounds c.1 c.2 minsleep maxsleep st h1 hlo hhi
    exact ih _ hstep.1 hstep.2

/-- Claim C1 (amended): along every persistent run, the sleep
interval stays within `[minsleep, max minsleep (2 * (maxsleep - 1))]`
— not within `[minsleep, maxsleep]`, since the `sleeptime < maxsleep`
guard is checked before doubling, so one doubling may overshoot
`maxsleep`.  The interval doubles exactly on a zero-correction cycle
with at least one inlier and `sleeptime` still below `maxsleep`, is
unchanged on such a cycle at or above `maxsleep`, resets to
`minsleep` exactly on a cycle with at least one inlier and nonzero
correction, and is unchanged on a cycle with no inliers. -/
theorem sleeptime_invariant (minsleep maxsleep : Int) (cycles : List (Nat × Int))
    (goodtimes0 : Nat) (sumtimes0 st : Int) (h1 : 1 ≤ minsleep) :
    (minsleep ≤ runSleeptime minsleep maxsleep cycles ∧
      runSleeptime minsleep maxsleep cycles ≤ max minsleep (2 * (maxsleep - 1))) ∧
    (goodtimes0 ≠ 0 → sumtimes0 = 0 → st < maxsleep →
      nextSleeptime goodtimes0 sumtimes0 minsleep maxsleep st = 2 * st) ∧
    (goodtimes0 ≠ 0 → sumtimes0 = 0 → ¬ st < maxsleep →
      nextSleeptime goodtimes0 sumtimes0 minsleep maxsleep st = st) ∧
    (goodtimes0 ≠ 0 → sumtimes0 ≠ 0 →
      nextSleeptime goodtimes0 sumtimes0 minsleep maxsleep st = minsleep) ∧
    (goodtimes0 = 0 →
      nextSleeptime goodtimes0 sumtimes0 minsleep maxsleep st = st) := by
  refine ⟨?_, ?_, ?_, ?_, ?_⟩
  · exact runSleeptime_go_bounds cycles minsleep maxsleep minsleep h1 (le_refl _)
      (le_max_left _ _)
  · intro hg hs hd
    simp [nextSleeptime, hg, hs, hd]
  · intro hg hs hd
    simp [nextSleeptime, hg, hs, hd]
  · intro hg hs
    simp [nextSleeptime, hg, hs]
  · intro hg
    simp [nextSleeptime, hg]

/-- Witness for C1 (amended) at `minsleep = 1800`, `maxsleep = 115200`
(the defaults), the two-cycle run of one corrected cycle followed by
one synchronized cycle, and the step inputs `goodtimes = 1`,
`sumtimes = 0`, `sleeptime = 1800`. -/
theorem sleeptime_invariant_witness :
    ((1800 : Int) ≤ runSleeptime 1800 115200 [(1, 5), (1, 0)] ∧
      runSleeptime 1800 115200 [(1, 5), (1, 0)] ≤ max 1800 (2 * (115200 - 1))) ∧
    ((1 : Nat) ≠ 0 → (0 : Int) = 0 → (1800 : Int) < 115200 →
      nextSleeptime 1 0 1800 115200 1800 = 2 * 1800) ∧
    ((1 : Nat) ≠ 0 → (0 : Int) = 0 → ¬ (1800 : Int) < 115200 →
      nextSleeptime 1 0 1800 115200 1800 = 1800) ∧
    ((1 : Nat) ≠ 0 → (0 : Int) ≠ 0 →
      nextSleeptime 1 0 1800 115200 1800 = 1800) ∧
    ((1 : Nat) = 0 →
      nextSleeptime 1 0 1800 115200 1800 = 1800) :=
  sleeptime_invariant 1800 115200 [(1, 5), (1, 0)] 1 0 1800 (by decide)

/-- Counterexample to claim C3 as stated: a received response whose
`Date:` header is present but unparsable, read at local time 1000,
does not return the zero sentinel — it returns
`LONG_MAX - 1000`. -/
theorem unparsable_date_not_zero :
    (getHTTPdate true true true (some none) 1000).delta ≠ 0 := by decide

/-- Claim C3 (amended): on a missing or unparsable date field,
`getHTTPdate` logs the problem and returns `LONG_MAX - localSec`
(the `timevalue.tv_sec` sentinel keeps its `LONG_MAX` initializer),
a huge nonzero value for any realistic local clock — not the zero
sentinel used for unreachable sources. -/
theorem unparsable_date_returns_longmax (dateLine : Option (Option Int))
    (localSec : Int) (hd : dateLine = none ∨ dateLine = some none)
    (hl : localSec < LONG_MAX) :
    (getHTTPdate true true true dateLine localSec).delta = LONG_MAX - localSec ∧
      (getHTTPdate true true true dateLine localSec).delta ≠ 0 ∧
      (getHTTPdate true true true dateLine localSec).logs ≠ [] := by
  rcases hd with hd | hd
  · subst hd
    refine ⟨rfl, ?_, by simp [getHTTPdate]⟩
    have he : (getHTTPdate true true true none localSec).delta = LONG_MAX - localSec := rfl
    rw [he]
    omega
  · subst hd
    refine ⟨rfl, ?_, by simp [getHTTPdate]⟩
    have he : (getHTTPdate true true true (some none) localSec).delta =
        LONG_MAX - localSec := rfl
    rw [he]
    omega

/-- Witness for C3 (amended) at an unparsable date line and local
time 1000. -/
theorem unparsable_date_returns_longmax_witness :
    (getHTTPdate true true true (some none) 1000).delta = LONG_MAX - 1000 ∧
      (getHTTPdate true true true (some none) 1000).delta ≠ 0 ∧
      (getHTTPdate true true true (some none) 1000).logs ≠ [] :=
  unparsable_date_returns_longmax (some none) 1000 (Or.inr rfl) (by decide)

/-- Counterexample to claim C4 as stated: at local time 1000, a
resolution failure returns delta 0, and so does a reachable source
whose parsed time equals the local time (a confirmed zero offset) —
the two cases yield the same returned value. -/
theorem failure_indistinguishable_from_zero :
    (getHTTPdate false true true none 1000).delta = 0 ∧
      (getHTTPdate true true true (some (some 1000)) 1000).delta = 0 ∧
      (getHTTPdate false true true none 1000).delta =
        (getHTTPdate true true true (some (some 1000)) 1000).delta := by
  refine ⟨rfl, ?_, ?_⟩
  · decide
  · decide

/-- Claim C4 (amended): the samples produced on total resolution or
connection failure and by a reachable source with a confirmed zero
offset are NOT distinguishable by returned value — all three return
the zero sentinel ("Assume correct time"), the dual-purpose zero
the design notes of the spec acknowledge. -/
theorem failure_and_zero_conflated (connectOk recvOk : Bool)
    (dateLine : Option (Option Int)) (localSec : Int) :
    (getHTTPdate false connectOk recvOk dateLine localSec).delta = 0 ∧
      (getHTTPdate true false recvOk dateLine localSec).delta = 0 ∧
      (getHTTPdate true true true (some (some localSec)) localSec).delta = 0 := by
  refine ⟨rfl, rfl, ?_⟩
  simp [getHTTPdate]

/-- Claim C8: for every mode, applying a correction whose offset is
exactly zero short-circuits before any privileged call: it does not
elevate, calls neither `adjtime` nor `settimeofday`, only logs that
no correction is needed, and returns success. -/
theorem setclock_zero_noop (env : SysEnv) (setmode : Int) :
    setclockEffects env 0 setmode =
      { logs := ["No time correction needed"], elevated := false,
        adjtimeCalled := false, writtenTime := none, ret := 0 } := by
  unfold setclockEffects
  simp

/-- Claim C10 (the code bug it exposes): in HardSet mode with current
wall-clock time 100.0 s and offset +0.5 s, the time written to
`settimeofday` is `(100, 0)` — the microseconds field is zero, not
500000, because `(long)(timedelta - timeofday.tv_sec) * 1000000`
truncates the sub-second part to zero before multiplying (mode 1
shows the intended order of operations) — so the written time 100 s
differs from `t + d = 100.5` s. -/
theorem hardset_drops_subsecond :
    (setclockEffects ⟨100, 0, 0, 0⟩ (1 / 2) 2).writtenTime = some (100, 0) ∧
      (100 : ℚ) + (0 : ℚ) / 1000000 ≠
        ((100 : ℚ) + (0 : ℚ) * (1 / 1000000)) + 1 / 2 := by
  constructor
  · unfold setclockEffects
    have h1 : Int.tdiv 201 2 = 100 := by decide
    have h2 : Int.tdiv 1 2 = 0 := by decide
    norm_num [ctrunc, h1, h2]
  · norm_num

/-- Counterexample to claim C2 as stated: with current kernel
frequency 1000 and drift ratio 0 the candidate is 0; the code writes
`1000 + (0 >> 1) = 1000`, while the equal-weight average of current
and candidate would be 500. -/
theorem adjtimex_not_average :
    htpdate_adjtimex 1000 0 = 1000 ∧ averagedFreq 1000 0 = 500 ∧
      htpdate_adjtimex 1000 0 ≠ averagedFreq 1000 0 := by
  have hc : candidateFreq 0 = 0 := by
    norm_num [candidateFreq, ctrunc]
  refine ⟨?_, ?_, ?_⟩ <;> simp only [htpdate_adjtimex, averagedFreq, hc] <;> decide

/-- Claim C2 (amended): in AdjustFrequency mode, when a prior
correction timestamp exists, the new kernel frequency value written
equals the current value plus HALF the candidate `65536e6 * drift`
(halved by an arithmetic shift), the sum clamped to the range
`[-32768000, 32768000]` — not the equal-weight average of current
and candidate; in particular the written value always lies within
plus or minus 32768000. -/
theorem adjtimex_halved_candidate (curFreq : Int) (drift : ℚ) :
    htpdate_adjtimex curFreq drift =
      max (-MAX_DRIFT) (min MAX_DRIFT (curFreq + Int.fdiv (candidateFreq drift) 2)) ∧
      -MAX_DRIFT ≤ htpdate_adjtimex curFreq drift ∧
      htpdate_adjtimex curFreq drift ≤ MAX_DRIFT := by
  have hM : (0 : Int) < MAX_DRIFT := by decide
  unfold htpdate_adjtimex
  simp only [csign, MAX_DRIFT] at hM ⊢
  split_ifs with hf hs <;> omega

/-- Claim C7: a cycle with zero inliers never reaches `setclock` or
`htpdate_adjtimex` in any mode; in persistent mode it sleeps
`minsleep` and retries with `sleeptime` unchanged, and in one-shot
mode the process exits with status 1. -/
theorem no_inliers_no_mutation (persistent : Bool) (setmode : Int)
    (precision : Nat) (sumtimes0 minsleep maxsleep sleeptime : Int)
    (starttimeSet : Bool) :
    (cycleFinish persistent setmode precision 0 sumtimes0 minsleep maxsleep
        sleeptime starttimeSet).setclockArg = none ∧
      (cycleFinish persistent setmode precision 0 sumtimes0 minsleep maxsleep
        sleeptime starttimeSet).adjtimexCalled = false ∧
      (persistent = true →
        (cycleFinish persistent setmode precision 0 sumtimes0 minsleep maxsleep
          sleeptime starttimeSet).sleeps = [minsleep] ∧
        (cycleFinish persistent setmode precision 0 sumtimes0 minsleep maxsleep
          sleeptime starttimeSet).exitCode = none ∧
        (cycleFinish persistent setmode precision 0 sumtimes0 minsleep maxsleep
          sleeptime starttimeSet).sleeptime = sleeptime) ∧
      (persistent = false →
        (cycleFinish persistent setmode precision 0 sumtimes0 minsleep maxsleep
          sleeptime starttimeSet).exitCode = some 1) := by
  refine ⟨rfl, rfl, ?_, ?_⟩
  · intro hp
    subst hp
    exact ⟨rfl, rfl, rfl⟩
  · intro hp
    subst hp
    rfl

/-- Witness for C7 in persistent mode with default intervals. -/
theorem no_inliers_no_mutation_witness :
    (cycleFinish true 1 0 0 0 1800 115200 3600 false).setclockArg = none ∧
      (cycleFinish true 1 0 0 0 1800 115200 3600 false).adjtimexCalled = false ∧
      (true = true →
        (cycleFinish true 1 0 0 0 1800 115200 3600 false).sleeps = [1800] ∧
        (cycleFinish true 1 0 0 0 1800 115200 3600 false).exitCode = none ∧
        (cycleFinish true 1 0 0 0 1800 115200 3600 false).sleeptime = 3600) ∧
      (true = false →
        (cycleFinish true 1 0 0 0 1800 115200 3600 false).exitCode = some 1) :=
  no_inliers_no_mutation true 1 0 0 1800 115200 3600 false

/-- Claim C9: when a precision window `P > 0` is configured, the
inlier sum lies strictly between `-goodtimes` and `goodtimes`, and
the correcting branch is taken, `setclock` receives
`P / 1000000 * sign(sumtimes)` (the source's `sign`, with
`sign 0 = 1`) instead of the raw mean; in particular `P = 50000`,
`sumtimes = 1`, `goodtimes = 2` yields exactly `+0.05`. -/
theorem precision_snap (persistent : Bool) (setmode : Int) (precision : Nat)
    (goodtimes0 : Nat) (sumtimes0 minsleep maxsleep sleeptime : Int)
    (starttimeSet : Bool) (hp : 0 < precision)
    (hlt : sumtimes0 < (goodtimes0 : Int)) (hgt : -(goodtimes0 : Int) < sumtimes0)
    (hbr : sumtimes0 ≠ 0 ∨ persistent = false) (hg : goodtimes0 ≠ 0) :
    (cycleFinish persistent setmode precision goodtimes0 sumtimes0 minsleep
        maxsleep sleeptime starttimeSet).setclockArg =
      some ((precision : ℚ) / 1000000 * ((csign sumtimes0 : Int) : ℚ)) ∧
      snapAvg 50000 1 2 = 1 / 20 := by
  constructor
  · simp only [cycleFinish, if_pos hg, if_pos hbr]
    have hs : snapAvg precision sumtimes0 goodtimes0 =
        (precision : ℚ) / 1000000 * ((csign sumtimes0 : Int) : ℚ) := by
      unfold snapAvg
      rw [if_pos ⟨by omega, hlt, hgt⟩]
    rw [hs]
  · norm_num [snapAvg, csign]

/-- Witness for C9 at the spec's scenario: one-shot mode,
`P = 50000`, `sumtimes = 1`, `goodtimes = 2`. -/
theorem precision_snap_witness :
    (cycleFinish false 0 50000 2 1 1800 115200 1800 false).setclockArg =
      some ((50000 : ℚ) / 1000000 * ((csign 1 : Int) : ℚ)) ∧
      snapAvg 50000 1 2 = 1 / 20 :=
  precision_snap false 0 50000 2 1 1800 115200 1800 false (by decide)
    (by decide) (by decide) (Or.inr rfl) (by decide)

end Htpdate
